import Mathlib

/-!
Shallow embedding of the Quiz-Me backend (`backend/main.py`) used to check the
specification's claims about the request handlers.  Text is modelled as
`List Char` (Python `str`), raw uploads as `List Nat` (bytes), and the two
external collaborators — the PDF text extractor (`fitz`) and the generation
provider (`google.genai`) — as function parameters of the pipeline, since the
handler only observes their success value or the exception they raise.
Note: everything from line 250 of `backend/main.py` onward is unreachable
(every path of the preceding try/except returns), so the live endpoint body
is lines 140-224 and only that code is embedded.
-/

/-- Characters of a string literal, the `List Char` view of a Python `str`. -/
def strL (s : String) : List Char := s.data

/-- First-match association lookup, the behaviour of `MultiDict.get` and of
Python `dict` indexing used on the request data. -/
def assocGet : List (List Char × List Char) → List Char → Option (List Char)
  | [], _ => none
  | (k, v) :: rest, key => if k = key then some v else assocGet rest key

/-- ASCII case folding of `str.lower`, applied to filenames before the
extension test.  The two suffixes compared against are pure ASCII. -/
def pyLower (s : List Char) : List Char :=
  s.map (fun c => if 'A' ≤ c ∧ c ≤ 'Z' then Char.ofNat (c.toNat + 32) else c)

/-- Code points with the Unicode whitespace property, the set stripped by
Python `str.strip()` with no arguments. -/
def pySpaceCodes : List Nat :=
  [9, 10, 11, 12, 13, 28, 29, 30, 31, 32, 133, 160, 5760,
   8192, 8193, 8194, 8195, 8196, 8197, 8198, 8199, 8200, 8201, 8202,
   8232, 8233, 8239, 8287, 12288]

def pySpace (c : Char) : Bool := pySpaceCodes.contains c.toNat

/-- Python `str.strip()`: whitespace removed from both ends. -/
def pyStrip (t : List Char) : List Char :=
  ((t.dropWhile pySpace).reverse.dropWhile pySpace).reverse

/-- Continuation byte test for UTF-8 (`0x80-0xBF`). -/
def utf8Cont (b : Nat) : Bool := 128 ≤ b && b ≤ 191

/-- One scan of a byte string as UTF-8, producing `some codePoint` for each
decoded scalar and `none` for each maximal invalid subpart, exactly the token
stream over which CPython's `bytes.decode('utf-8', errors=...)` applies its
error handler ('ignore' drops a token, 'replace' emits U+FFFD for it). -/
def utf8Scan : Nat → List Nat → List (Option Nat)
  | 0, _ => []
  | _, [] => []
  | fuel + 1, b :: rest =>
    if b < 128 then some b :: utf8Scan fuel rest
    else if b < 194 then none :: utf8Scan fuel rest
    else if b ≤ 223 then
      match rest with
      | b2 :: r2 =>
        if utf8Cont b2 then some ((b - 192) * 64 + (b2 - 128)) :: utf8Scan fuel r2
        else none :: utf8Scan fuel rest
      | [] => [none]
    else if b ≤ 239 then
      let lo : Nat := if b = 224 then 160 else 128
      let hi : Nat := if b = 237 then 159 else 191
      match rest with
      | b2 :: r2 =>
        if lo ≤ b2 ∧ b2 ≤ hi then
          match r2 with
          | b3 :: r3 =>
            if utf8Cont b3 then
              some ((b - 224) * 4096 + (b2 - 128) * 64 + (b3 - 128)) :: utf8Scan fuel r3
            else none :: utf8Scan fuel r2
          | [] => [none]
        else none :: utf8Scan fuel rest
      | [] => [none]
    else if b ≤ 244 then
      let lo : Nat := if b = 240 then 144 else 128
      let hi : Nat := if b = 244 then 143 else 191
      match rest with
      | b2 :: r2 =>
        if lo ≤ b2 ∧ b2 ≤ hi then
          match r2 with
          | b3 :: r3 =>
            if utf8Cont b3 then
              match r3 with
              | b4 :: r4 =>
                if utf8Cont b4 then
                  some ((b - 240) * 262144 + (b2 - 128) * 4096 +
                        (b3 - 128) * 64 + (b4 - 128)) :: utf8Scan fuel r4
                else none :: utf8Scan fuel r3
              | [] => [none]
            else none :: utf8Scan fuel r2
          | [] => [none]
        else none :: utf8Scan fuel rest
      | [] => [none]
    else none :: utf8Scan fuel rest

def utf8Tokens (bs : List Nat) : List (Option Nat) := utf8Scan bs.length bs

/-- `bytes.decode('utf-8', errors='ignore')`: invalid subparts are dropped. -/
def pyDecodeUtf8Ignore (bs : List Nat) : List Char :=
  (utf8Tokens bs).filterMap (fun o => o.map Char.ofNat)

/-- `bytes.decode('utf-8', errors='replace')`: each maximal invalid subpart
becomes one U+FFFD replacement character. -/
def pyDecodeUtf8Replace (bs : List Nat) : List Char :=
  (utf8Tokens bs).map (fun o => Char.ofNat (o.getD 0xFFFD))

/-! JSON values and a parser with the observable behaviour of `json.loads`:
the four whitespace characters of the JSON lexer, strict strings (raw control
characters rejected, the nine escapes, `\uXXXX` with surrogate-pair joining
and lone surrogates kept), the JSON number grammar, the `NaN` / `Infinity` /
`-Infinity` extensions, duplicate object keys resolved as `dict` does (first
position, last value), and rejection of trailing non-whitespace. -/

/-- A parsed JSON value.  String contents are code points (`List Nat`)
because `json.loads` can produce lone surrogates; numeric literals are kept
as their lexeme, which is all the handler observes before re-serialising. -/
inductive JValue where
  | jnull : JValue
  | jbool (b : Bool) : JValue
  | jnum (lexeme : List Char) : JValue
  | jstr (cps : List Nat) : JValue
  | jarr (items : List JValue) : JValue
  | jobj (fields : List (List Nat × JValue)) : JValue

def jsonWsChar (c : Char) : Bool := c = ' ' || c = '\t' || c = '\n' || c = '\r'

def skipWs (cs : List Char) : List Char := cs.dropWhile jsonWsChar

def hexVal (c : Char) : Option Nat :=
  if '0' ≤ c ∧ c ≤ '9' then some (c.toNat - 48)
  else if 'a' ≤ c ∧ c ≤ 'f' then some (c.toNat - 87)
  else if 'A' ≤ c ∧ c ≤ 'F' then some (c.toNat - 55)
  else none

def hex4 : List Char → Option (Nat × List Char)
  | a :: b :: c :: d :: r =>
    match hexVal a, hexVal b, hexVal c, hexVal d with
    | some x, some y, some z, some w => some (((x * 16 + y) * 16 + z) * 16 + w, r)
    | _, _, _, _ => none
  | _ => none

/-- Body of a JSON string after the opening quote, per `py_scanstring` in
strict mode: ends at `"`, rejects raw control characters, decodes escapes,
and joins a high `\uXXXX` surrogate with an immediately following low one. -/
def parseStrAux : Nat → List Char → List Nat → Option (List Nat × List Char)
  | 0, _, _ => none
  | fuel + 1, cs, acc =>
    match cs with
    | [] => none
    | c :: rest =>
      if c = '"' then some (acc.reverse, rest)
      else if c = '\\' then
        match rest with
        | [] => none
        | e :: r2 =>
          if e = '"' then parseStrAux fuel r2 (34 :: acc)
          else if e = '\\' then parseStrAux fuel r2 (92 :: acc)
          else if e = '/' then parseStrAux fuel r2 (47 :: acc)
          else if e = 'b' then parseStrAux fuel r2 (8 :: acc)
          else if e = 'f' then parseStrAux fuel r2 (12 :: acc)
          else if e = 'n' then parseStrAux fuel r2 (10 :: acc)
          else if e = 'r' then parseStrAux fuel r2 (13 :: acc)
          else if e = 't' then parseStrAux fuel r2 (9 :: acc)
          else if e = 'u' then
            match hex4 r2 with
            | none => none
            | some (n, r3) =>
              if 55296 ≤ n ∧ n ≤ 56319 then
                match r3 with
                | '\\' :: 'u' :: r4 =>
                  match hex4 r4 with
                  | some (m, r5) =>
                    if 56320 ≤ m ∧ m ≤ 57343 then
                      parseStrAux fuel r5
                        ((65536 + (n - 55296) * 1024 + (m - 56320)) :: acc)
                    else parseStrAux fuel r3 (n :: acc)
                  | none => parseStrAux fuel r3 (n :: acc)
                | _ => parseStrAux fuel r3 (n :: acc)
              else parseStrAux fuel r3 (n :: acc)
          else none
      else if c.toNat < 32 then none
      else parseStrAux fuel rest (c.toNat :: acc)

/-- Integer part of the JSON number grammar: `0` or `[1-9][0-9]*`. -/
def jsonIntPart : List Char → Option (List Char × List Char)
  | [] => none
  | c :: cs =>
    if c = '0' then some ([c], cs)
    else if c.isDigit then
      some (c :: cs.takeWhile Char.isDigit, cs.dropWhile Char.isDigit)
    else none

/-- Lexeme of the JSON number regex `-?(0|[1-9]\d*)(\.\d+)?([eE][-+]?\d+)?`;
a dot or exponent marker not followed by digits is left unconsumed, as a
regex match would leave it. -/
def jsonNumber (cs : List Char) : Option (List Char × List Char) :=
  let sgn : List Char × List Char :=
    match cs with
    | '-' :: r => (['-'], r)
    | _ => ([], cs)
  match jsonIntPart sgn.2 with
  | none => none
  | some (ip, cs2) =>
    let frac : List Char × List Char :=
      match cs2 with
      | '.' :: r =>
        let ds := r.takeWhile Char.isDigit
        if ds = [] then ([], cs2) else ('.' :: ds, r.dropWhile Char.isDigit)
      | _ => ([], cs2)
    let ex : List Char × List Char :=
      match frac.2 with
      | e :: r =>
        if e = 'e' ∨ e = 'E' then
          let sg : List Char × List Char :=
            match r with
            | s :: r2 => if s = '+' ∨ s = '-' then ([s], r2) else ([], r)
            | [] => ([], r)
          let ds := sg.2.takeWhile Char.isDigit
          if ds = [] then ([], frac.2)
          else (e :: (sg.1 ++ ds), sg.2.dropWhile Char.isDigit)
        else ([], frac.2)
      | [] => ([], frac.2)
    some (sgn.1 ++ ip ++ frac.1 ++ ex.1, ex.2)

/-- Literal keyword match, returning the remaining input. -/
def litTake (lit cs : List Char) : Option (List Char) :=
  if lit.isPrefixOf cs then some (cs.drop lit.length) else none

/-- Insert a key/value pair with `dict` semantics: an existing key keeps its
position and takes the new value, a new key is appended. -/
def objUpsert : List (List Nat × JValue) → List Nat → JValue → List (List Nat × JValue)
  | [], k, v => [(k, v)]
  | (k0, v0) :: rest, k, v =>
    if k0 = k then (k0, v) :: rest else (k0, v0) :: objUpsert rest k v

def objFromPairs (ps : List (List Nat × JValue)) : List (List Nat × JValue) :=
  ps.foldl (fun acc kv => objUpsert acc kv.1 kv.2) []

def lbraceC : Char := Char.ofNat 123

def rbraceC : Char := Char.ofNat 125

mutual

/-- One JSON value starting at the head of the input (no leading whitespace),
returning the value and the unconsumed remainder. -/
def parseValue : Nat → List Char → Option (JValue × List Char)
  | 0, _ => none
  | fuel + 1, cs =>
    match cs with
    | [] => none
    | c :: rest =>
      if c = lbraceC then
        let r1 := skipWs rest
        match r1 with
        | c1 :: r2 => if c1 = rbraceC then some (.jobj [], r2) else parseObjFields fuel r1 []
        | [] => none
      else if c = '[' then
        let r1 := skipWs rest
        match r1 with
        | ']' :: r2 => some (.jarr [], r2)
        | _ => parseArrItems fuel r1 []
      else if c = '"' then
        match parseStrAux (rest.length + 1) rest [] with
        | some (s, r) => some (.jstr s, r)
        | none => none
      else
        match litTake (strL ("null")) cs with
        | some r => some (.jnull, r)
        | none =>
        match litTake (strL ("true")) cs with
        | some r => some (.jbool true, r)
        | none =>
        match litTake (strL ("false")) cs with
        | some r => some (.jbool false, r)
        | none =>
        match jsonNumber cs with
        | some (lex, r) => some (.jnum lex, r)
        | none =>
        match litTake (strL ("NaN")) cs with
        | some r => some (.jnum (strL ("NaN")), r)
        | none =>
        match litTake (strL ("Infinity")) cs with
        | some r => some (.jnum (strL ("Infinity")), r)
        | none =>
        match litTake (strL ("-Infinity")) cs with
        | some r => some (.jnum (strL ("-Infinity")), r)
        | none => none

/-- Object members from the first key onward (input already past `{` and
whitespace); accumulates raw pairs and resolves duplicates at the brace. -/
def parseObjFields : Nat → List Char → List (List Nat × JValue) →
    Option (JValue × List Char)
  | 0, _, _ => none
  | fuel + 1, cs, pairs =>
    match cs with
    | '"' :: rest =>
      match parseStrAux (rest.length + 1) rest [] with
      | none => none
      | some (key, r1) =>
        match skipWs r1 with
        | ':' :: r2 =>
          match parseValue fuel (skipWs r2) with
          | none => none
          | some (v, r3) =>
            match skipWs r3 with
            | c4 :: r4 =>
              if c4 = rbraceC then some (.jobj (objFromPairs (pairs ++ [(key, v)])), r4)
              else if c4 = ',' then parseObjFields fuel (skipWs r4) (pairs ++ [(key, v)])
              else none
            | [] => none
        | _ => none
    | _ => none

/-- Array items from the first element onward (input already past `[` and
whitespace, and not at `]`). -/
def parseArrItems : Nat → List Char → List JValue → Option (JValue × List Char)
  | 0, _, _ => none
  | fuel + 1, cs, items =>
    match parseValue fuel cs with
    | none => none
    | some (v, r1) =>
      match skipWs r1 with
      | ']' :: r2 => some (.jarr (items ++ [v]), r2)
      | ',' :: r2 => parseArrItems fuel (skipWs r2) (items ++ [v])
      | _ => none

end

/-- `json.loads`: one value, surrounded by optional whitespace, and nothing
else; `none` is the `JSONDecodeError` outcome. -/
def jsonLoads (cs : List Char) : Option JValue :=
  let cs1 := skipWs cs
  match parseValue (2 * cs1.length + 2) cs1 with
  | some (v, rest) => if skipWs rest = [] then some v else none
  | none => none

/-! HTTP surface.  A handler's observable result is a status code plus one of
the JSON body shapes the code produces with `jsonify`. -/

/-- Body shapes: `jsonify({"message": m})`, `jsonify({"success": False,
"message": m})`, `jsonify({"success": True, "questions": v})`,
`jsonify({"success": True, "message": m})`, `jsonify(access_token=t)`. -/
inductive RespBody where
  | msgOnly (message : List Char) : RespBody
  | failure (message : List Char) : RespBody
  | success (questions : JValue) : RespBody
  | okMsg (message : List Char) : RespBody
  | token (t : List Char) : RespBody

structure HttpResponse where
  status : Nat
  body : RespBody

/-! Response constants of `generate_questions` (`backend/main.py` 140-224). -/

def missingKeyMsg : List Char :=
  strL ("Server configuration error: GOOGLE_API_KEY not found in .env")

def noDocMsg : List Char := strL ("No document file provided.")

def noFileMsg : List Char := strL ("No selected file.")

def unsupportedMsg : List Char := strL ("Unsupported file type. Please use PDF or TXT.")

def emptyDocMsg : List Char := strL ("Could not extract any text from the document.")

def procFailMsg : List Char := strL ("Failed to process the uploaded document.")

def malformedMsg : List Char :=
  strL ("The AI returned an invalid JSON format. Please try again.")

/-- Prefix of the message of the generic provider-failure branch, completed
with `str(e)`. -/
def provErrPre : List Char := strL ("An error occurred while generating questions: ")

/-- The `SYSTEM_PROMPT` constant of `backend/main.py`, verbatim (braces and
apostrophes written as escapes). -/
def SYSTEM_PROMPT : List Char := strL (
  ("\n")
  ++ ("You are an expert curriculum designer and a helpful AI assistant for teachers. \n")
  ++ ("Your task is to generate high-quality, relevant quiz questions based on the provided text document.\n")
  ++ ("\n")
  ++ ("The output MUST be a valid JSON array of question objects. \n")
  ++ ("Do not include any explanatory text, notes, or markdown formatting like ```json ... ``` before or after the JSON array.\n")
  ++ ("The response must start with \x27[\x27 and end with \x27]\x27.\n")
  ++ ("\n")
  ++ ("Each object in the array must conform to one of the following structures based on the \x27type\x27 key.\n")
  ++ ("\n")
  ++ ("1. For \"single\" choice questions:\n")
  ++ ("\x7b\n")
  ++ ("  \"id\": \"placeholder_id\",\n")
  ++ ("  \"type\": \"single\",\n")
  ++ ("  \"Question\": \"The question text?\",\n")
  ++ ("  \"Options\": [\"Option A\", \"Correct Option B\", \"Option C\", \"Option D\"],\n")
  ++ ("  \"answer\": \"Correct Option B\",\n")
  ++ ("  \"Rationale\": \"A brief explanation of why the answer is correct.\",\n")
  ++ ("  \"hint\": \"An optional hint for the student.\"\n")
  ++ ("\x7d\n")
  ++ ("\n")
  ++ ("2. For \"multi-select\" questions:\n")
  ++ ("\x7b\n")
  ++ ("  \"id\": \"placeholder_id\",\n")
  ++ ("  \"type\": \"multi-select\",\n")
  ++ ("  \"Question\": \"The question text, asking for multiple answers?\",\n")
  ++ ("  \"Options\": [\"Correct Option A\", \"Incorrect Option B\", \"Correct Option C\", \"Incorrect Option D\"],\n")
  ++ ("  \"answer\": [\"Correct Option A\", \"Correct Option C\"],\n")
  ++ ("  \"Rationale\": \"A brief explanation of why the selected answers are correct.\",\n")
  ++ ("  \"hint\": \"An optional hint for the student.\"\n")
  ++ ("\x7d\n")
  ++ ("\n")
  ++ ("3. For \"fill-in\" questions:\n")
  ++ ("\x7b\n")
  ++ ("  \"id\": \"placeholder_id\",\n")
  ++ ("  \"type\": \"fill-in\",\n")
  ++ ("  \"Question\": \"The capital of France is ____.\",\n")
  ++ ("  \"Options\": [],\n")
  ++ ("  \"answer\": \"Paris\",\n")
  ++ ("  \"Rationale\": \"Paris is the capital city of France.\",\n")
  ++ ("  \"hint\": \"It\x27s a famous European city known for art.\"\n")
  ++ ("\x7d\n")
  ++ ("\n")
  ++ ("4. For \"ordering\" questions:\n")
  ++ ("\x7b\n")
  ++ ("  \"id\": \"placeholder_id\",\n")
  ++ ("  \"type\": \"ordering\",\n")
  ++ ("  \"Question\": \"Arrange these planets in order from the sun.\",\n")
  ++ ("  \"Options\": [\"Mars\", \"Venus\", \"Earth\", \"Mercury\"],\n")
  ++ ("  \"answer\": [\"Mercury\", \"Venus\", \"Earth\", \"Mars\"],\n")
  ++ ("  \"Rationale\": \"This is the correct order of the first four planets from the sun.\",\n")
  ++ ("  \"hint\": \"A hot planet is first.\"\n")
  ++ ("\x7d\n"))

/-! Request metadata and prompt assembly. -/

/-- The five form fields read at `backend/main.py` 158-162. -/
structure MetaFields where
  subject : List Char
  grade : List Char
  notes : List Char
  num_questions : List Char
  question_types : List Char
deriving DecidableEq

/-- `request.form.get(key, default)`. -/
def formGet (form : List (List Char × List Char)) (key dflt : List Char) : List Char :=
  (assocGet form key).getD dflt

def extractMeta (form : List (List Char × List Char)) : MetaFields :=
  { subject := formGet form (strL ("subject")) (strL ("General"))
    grade := formGet form (strL ("grade")) (strL ("Unspecified"))
    notes := formGet form (strL ("notes")) (strL ("None"))
    num_questions := formGet form (strL ("num_questions")) (strL ("5"))
    question_types := formGet form (strL ("question_types")) (strL ("single, multi-select")) }

/-- The f-string of `user_prompt` up to and including the `---` line: fixed
fragments with the metadata fields interpolated verbatim between them. -/
def promptHead (m : MetaFields) : List Char :=
  strL ("Please generate ") ++ m.num_questions
  ++ strL (" questions from the following document.\n- Subject: ") ++ m.subject
  ++ strL ("\n- Grade Level: ") ++ m.grade
  ++ strL ("\n- Desired Question Types: ") ++ m.question_types
  ++ strL ("\n- Additional Teacher Notes: ") ++ m.notes
  ++ strL ("\n\nSource Text:\n---\n")

/-- `user_prompt` (`backend/main.py` 187-196): the head above, then
`extracted_text[:15000]`, then the closing newline. -/
def buildUserPrompt (m : MetaFields) (text : List Char) : List Char :=
  promptHead m ++ text.take 15000 ++ strL ("\n")

/-! Document ingestion (`backend/main.py` 168-184). -/

/-- Outcomes of the extension dispatch: the `else` 400 branch, or an
exception from the PDF library caught by the surrounding `except`. -/
inductive ExtractErr where
  | unsupportedFmt : ExtractErr
  | pdfFailure (msg : List Char) : ExtractErr

/-- Extension dispatch and text extraction.  `pdfX` is the opaque
`fitz` pipeline for `.pdf` bytes (result text, or the exception it raises);
`.txt` bytes are decoded with `errors='ignore'`. -/
def extractText (filename : List Char) (content : List Nat)
    (pdfX : List Nat → Except (List Char) (List Char)) : Except ExtractErr (List Char) :=
  if (strL (".pdf")).isSuffixOf (pyLower filename) then
    match pdfX content with
    | .ok t => .ok t
    | .error m => .error (.pdfFailure m)
  else if (strL (".txt")).isSuffixOf (pyLower filename) then
    .ok (pyDecodeUtf8Ignore content)
  else .error .unsupportedFmt

/-! Provider invocation and response validation (`backend/main.py` 198-224). -/

/-- What the handler observes of the provider call: `response.text`, or the
exception message used in the generic 500 branch. -/
inductive ProviderResult where
  | ok (text : List Char) : ProviderResult
  | exc (msg : List Char) : ProviderResult

/-- `json.loads(response.text)` and the response built from it: the parsed
value passed through on success, the constant 500 message on
`JSONDecodeError`. -/
def parseAndRespond (ptext : List Char) : HttpResponse :=
  match jsonLoads ptext with
  | none => ⟨500, .failure malformedMsg⟩
  | some v => ⟨200, .success v⟩

/-- Prompt assembly, the provider call, and response validation. -/
def providerPhase (m : MetaFields) (text : List Char)
    (prov : List Char → List Char → ProviderResult) : HttpResponse :=
  match prov SYSTEM_PROMPT (buildUserPrompt m text) with
  | .exc msg => ⟨500, .failure (provErrPre ++ msg)⟩
  | .ok ptext => parseAndRespond ptext

/-- The `document` entry of `request.files`. -/
structure FileUpload where
  filename : List Char
  content : List Nat

/-- One call of the generation endpoint: the multipart file (if any) and the
form fields. -/
structure GenRequest where
  document : Option FileUpload
  form : List (List Char × List Char)

/-- `generate_questions` (`backend/main.py` 140-224).  `apiKey` is
`os.getenv("GOOGLE_API_KEY")`; `if not api_key` is true for an absent or
empty value. -/
def generateQuestions (apiKey : Option (List Char)) (req : GenRequest)
    (pdfX : List Nat → Except (List Char) (List Char))
    (prov : List Char → List Char → ProviderResult) : HttpResponse :=
  if apiKey.getD [] = [] then ⟨500, .msgOnly missingKeyMsg⟩
  else
    match req.document with
    | none => ⟨400, .failure noDocMsg⟩
    | some file =>
      if file.filename = [] then ⟨400, .failure noFileMsg⟩
      else
        match extractText file.filename file.content pdfX with
        | .error .unsupportedFmt => ⟨400, .failure unsupportedMsg⟩
        | .error (.pdfFailure _) => ⟨500, .failure procFailMsg⟩
        | .ok text =>
          if pyStrip text = [] then ⟨400, .failure emptyDocMsg⟩
          else providerPhase (extractMeta req.form) text prov

/-! Authentication endpoints (`backend/main.py` 56-75).  Request bodies are
modelled as string-valued JSON objects (the shape these handlers consume);
an `Except.error` is an exception leaving the handler uncaught — neither
handler has a try/except, so Flask would surface it as an unhandled fault. -/

/-- Exceptions the handlers can let escape. -/
inductive PyExc where
  | keyError (key : List Char) : PyExc

/-- A row of the `User` table as `login` reads it. -/
structure UserRec where
  uid : Nat
  email : List Char
  passwordHash : List Char

/-- `register` (`backend/main.py` 56-66): `data['email']` raises `KeyError`
when absent; duplicate email answers 409; otherwise the password is hashed
(`data['password']`, again unguarded) and the user row is created. -/
def register (existingEmails : List (List Char))
    (body : List (List Char × List Char)) : Except PyExc HttpResponse :=
  match assocGet body (strL ("email")) with
  | none => .error (.keyError (strL ("email")))
  | some em =>
    if existingEmails.contains em then
      .ok ⟨409, .msgOnly (strL ("Email already exists"))⟩
    else
      match assocGet body (strL ("password")) with
      | none => .error (.keyError (strL ("password")))
      | some _ => .ok ⟨201, .msgOnly (strL ("User registered successfully"))⟩

/-- `login` (`backend/main.py` 68-75).  `checkHash` is
`bcrypt.check_password_hash`, `mkToken` is `create_access_token`; the
short-circuit of `user and check(...)` means `data['password']` is only
read when the email matched a user. -/
def login (users : List UserRec) (checkHash : List Char → List Char → Bool)
    (mkToken : Nat → List Char → List Char)
    (body : List (List Char × List Char)) : Except PyExc HttpResponse :=
  match assocGet body (strL ("email")) with
  | none => .error (.keyError (strL ("email")))
  | some em =>
    match users.find? (fun u => u.email == em) with
    | none => .ok ⟨401, .msgOnly (strL ("Invalid credentials"))⟩
    | some u =>
      match assocGet body (strL ("password")) with
      | none => .error (.keyError (strL ("password")))
      | some pw =>
        if checkHash u.passwordHash pw then .ok ⟨200, .token (mkToken u.uid u.email)⟩
        else .ok ⟨401, .msgOnly (strL ("Invalid credentials"))⟩

/-! Credential verification endpoint. -/

/-- Persisted process configuration (the `.env` key-value file). -/
structure ConfigStore where
  googleApiKey : Option (List Char)
deriving DecidableEq

/-- Outcome of the lightweight read-only provider call made to check a
candidate credential. -/
inductive VerifyResult where
  | verified : VerifyResult
  | authFailure : VerifyResult
  | otherFailure (msg : List Char) : VerifyResult
deriving DecidableEq

/-- Modelled from the spec: the `/api/verify-and-save-key` endpoint is not in
`src/` (only the spec's §4.3, §6 and §8 describe it).  Per the spec it reads
`api_key` from the JSON body (400 when missing), runs `verifyCredential` — a
lightweight read-only provider call — and only on success durably saves the
key to process configuration (200); on an authorization failure it answers
401 `InvalidCredential` without writing; any other failure answers 500. -/
def verifyAndSaveKey (verify : List Char → VerifyResult)
    (apiKeyField : Option (List Char)) (cfg : ConfigStore) :
    HttpResponse × ConfigStore :=
  match apiKeyField with
  | none => (⟨400, .failure (strL ("API key is required."))⟩, cfg)
  | some k =>
    if k = [] then (⟨400, .failure (strL ("API key is required."))⟩, cfg)
    else
      match verify k with
      | .verified => (⟨200, .okMsg (strL ("API key verified and saved."))⟩,
                      { googleApiKey := some k })
      | .authFailure => (⟨401, .failure (strL ("The provided API key is invalid."))⟩, cfg)
      | .otherFailure m => (⟨500, .failure m⟩, cfg)

/-! Concrete sample inputs used by the witnesses and counterexamples. -/

/-- A PDF extractor that always raises (never consulted on `.txt` paths). -/
def pdfX0 : List Nat → Except (List Char) (List Char) := fun _ => .error []

/-- A provider returning the empty JSON array. -/
def provEmptyArr : List Char → List Char → ProviderResult := fun _ _ => .ok (strL ("[]"))

/-- A `.txt` upload whose bytes spell "hi". -/
def fileHi : FileUpload := ⟨strL ("a.txt"), [104, 105]⟩

def reqHi : GenRequest := ⟨some fileHi, []⟩

/-- Code points of an ASCII string, the `List Nat` view of a parsed JSON
string's contents. -/
def cps (s : String) : List Nat := s.data.map Char.toNat

/-- Number of maximal invalid subparts a byte string decodes to. -/
def invalidCount (bs : List Nat) : Nat :=
  ((utf8Tokens bs).filter (fun o => o.isNone)).length

/-- A verifier that rejects exactly the credential "bad". -/
def verify0 : List Char → VerifyResult :=
  fun k => if k = strL ("bad") then .authFailure else .verified

/-- A provider response that is a JSON object (not an array) whose `answer`
shape violates the Question invariant for `type = single`. -/
def objPtext : List Char := strL ("\x7b\"type\": \"single\", \"answer\": [\"A\"]\x7d")

def provObj : List Char → List Char → ProviderResult := fun _ _ => .ok objPtext

/-- The value `json.loads` gives for `objPtext`. -/
def vObj : JValue :=
  .jobj [(cps ("type"), .jstr (cps ("single"))), (cps ("answer"), .jarr [.jstr (cps ("A"))])]

/-- A password check that accepts everything (for closed instances). -/
def checkHash0 : List Char → List Char → Bool := fun _ _ => true

/-- A token issuer returning the empty token (for closed instances). -/
def mkToken0 : Nat → List Char → List Char := fun _ _ => []

/-! Helper lemmas. -/

/-- A string cannot end in both `.txt` and `.pdf`: the code's `elif` order
therefore never sends a `.txt` filename to the PDF branch. -/
theorem suffix_txt_not_pdf {s : List Char}
    (h : (strL (".txt")).isSuffixOf s = true) :
    (strL (".pdf")).isSuffixOf s = false := by
  rw [List.isSuffixOf_iff_suffix] at h
  obtain ⟨t1, ht1⟩ := h
  by_contra hb
  rw [Bool.not_eq_false, List.isSuffixOf_iff_suffix] at hb
  obtain ⟨t2, ht2⟩ := hb
  have h1 : s.getLast? = some 't' := by
    rw [← ht1]; simp [strL]
  have h2 : s.getLast? = some 'f' := by
    rw [← ht2]; simp [strL]
  rw [h1] at h2
  exact absurd (Option.some.inj h2) (by decide)

/-- The ignore-mode decoding embeds, in order, into the replace-mode one:
dropping an invalid subpart versus marking it with U+FFFD. -/
theorem ignore_tokens_sublist (l : List (Option Nat)) :
    (l.filterMap (fun o => o.map Char.ofNat)).Sublist
      (l.map (fun o => Char.ofNat (o.getD 65533))) := by
  induction l with
  | nil => simp
  | cons o rest ih =>
    cases o with
    | none => simpa using ih.cons _
    | some a => simpa using ih.cons₂ (Char.ofNat a)

/-- Tokens are either kept or counted as invalid, never both. -/
theorem ignore_tokens_length (l : List (Option Nat)) :
    (l.filterMap (fun o => o.map Char.ofNat)).length
      + (l.filter (fun o => o.isNone)).length = l.length := by
  induction l with
  | nil => simp
  | cons o rest ih =>
    cases o with
    | none => simp [ih.symm]; omega
    | some a => simp [ih.symm]; omega

/-- The generic provider-error message never coincides with the
document-processing failure message, whatever the exception text. -/
theorem provErrPre_append_ne (msg : List Char) : provErrPre ++ msg ≠ procFailMsg := by
  intro h
  simp [provErrPre, procFailMsg, strL] at h

/-- Claim C1 (counterexample): with the provider credential absent, the endpoint
answers status 500, not the 401 the claim states. -/
theorem c1_counterexample :
    (generateQuestions none reqHi pdfX0 provEmptyArr).status = 500 ∧ (500 : Nat) ≠ 401 :=
  ⟨rfl, by decide⟩

/-- Claim C1 (amended): for every POST to /api/generate-questions made while the
provider credential is absent, the endpoint fails immediately with the
missing-credential response — before any file or form processing and before
any network activity, as the response is the same for every request body,
PDF extractor and provider — and the HTTP status is 500. -/
theorem c1_missing_key_short_circuits (req : GenRequest)
    (pdfX : List Nat → Except (List Char) (List Char))
    (prov : List Char → List Char → ProviderResult)
    (apiKey : Option (List Char)) (h : apiKey = none) :
    generateQuestions apiKey req pdfX prov = ⟨500, .msgOnly missingKeyMsg⟩ := by
  subst h; rfl

theorem c1_missing_key_short_circuits_w :
    generateQuestions none reqHi pdfX0 provEmptyArr = ⟨500, .msgOnly missingKeyMsg⟩ :=
  c1_missing_key_short_circuits reqHi pdfX0 provEmptyArr none rfl

/-- Claim C2: when the provider rejects the submitted api_key with an authorization
error, /api/verify-and-save-key answers 401 and leaves the persisted
configuration unchanged; the configuration is only ever changed by a key the
verification call accepted, which is then saved. -/
theorem c2_invalid_key_rejected_unsaved (verify : List Char → VerifyResult)
    (k : List Char) (cfg : ConfigStore) (hk : k ≠ []) (hv : verify k = .authFailure) :
    (verifyAndSaveKey verify (some k) cfg).1.status = 401 ∧
    (verifyAndSaveKey verify (some k) cfg).2 = cfg ∧
    ∀ ak cfg2, (verifyAndSaveKey verify ak cfg2).2 ≠ cfg2 →
      ∃ k2, ak = some k2 ∧ verify k2 = .verified ∧
        (verifyAndSaveKey verify ak cfg2).2.googleApiKey = some k2 := by
  refine ⟨by simp [verifyAndSaveKey, hk, hv], by simp [verifyAndSaveKey, hk, hv], ?_⟩
  intro ak cfg2 hne
  match hak : ak with
  | none => simp [verifyAndSaveKey] at hne
  | some k2 =>
    by_cases hk2 : k2 = []
    · simp [verifyAndSaveKey, hk2] at hne
    · match hver : verify k2 with
      | .verified => exact ⟨k2, rfl, hver, by simp [verifyAndSaveKey, hk2, hver]⟩
      | .authFailure => simp [verifyAndSaveKey, hk2, hver] at hne
      | .otherFailure m => simp [verifyAndSaveKey, hk2, hver] at hne

theorem c2_invalid_key_rejected_unsaved_w :
    (verifyAndSaveKey verify0 (some (strL ("bad"))) ⟨none⟩).1.status = 401 ∧
    (verifyAndSaveKey verify0 (some (strL ("bad"))) ⟨none⟩).2 = ⟨none⟩ :=
  ⟨(c2_invalid_key_rejected_unsaved verify0 (strL ("bad")) ⟨none⟩ (by decide) (by decide)).1,
   (c2_invalid_key_rejected_unsaved verify0 (strL ("bad")) ⟨none⟩ (by decide) (by decide)).2.1⟩

/-- Claim C3 (counterexample): a POST to /api/register whose JSON body has no
`email` field raises KeyError out of the handler — an unhandled fault, not a
JSON response. -/
theorem c3_counterexample : register [] [] = .error (.keyError (strL ("email"))) := rfl

/-- Claim C3 (amended): the generation endpoint converts the failures of its
guarded regions into JSON responses, but /api/register and /api/login do not
guard their field accesses: a body without `email` raises KeyError from
both, and register raises KeyError on a missing `password` once the email is
new. -/
theorem c3_auth_handlers_uncaught (emails : List (List Char)) (users : List UserRec)
    (checkHash : List Char → List Char → Bool) (mkToken : Nat → List Char → List Char)
    (body : List (List Char × List Char)) :
    (assocGet body (strL ("email")) = none →
      register emails body = .error (.keyError (strL ("email"))) ∧
      login users checkHash mkToken body = .error (.keyError (strL ("email")))) ∧
    (∀ em, assocGet body (strL ("email")) = some em →
      emails.contains em = false →
      assocGet body (strL ("password")) = none →
      register emails body = .error (.keyError (strL ("password")))) := by
  constructor
  · intro h
    exact ⟨by simp [register, h], by simp [login, h]⟩
  · intro em he hc hp
    have hmem : em ∉ emails := by simpa using hc
    simp [register, he, hp, hmem]

theorem c3_auth_handlers_uncaught_w :
    register [] [(strL ("email"), strL ("a@b.c"))] = .error (.keyError (strL ("password"))) :=
  (c3_auth_handlers_uncaught [] [] checkHash0 mkToken0
      [(strL ("email"), strL ("a@b.c"))]).2 (strL ("a@b.c")) rfl rfl rfl

/-- Claim C4 (counterexample): a `.txt` upload whose bytes are `0xFF 0x41` decodes
to "A" — the invalid byte is dropped, not replaced, so nothing marks where
the invalid input occurred (replacement decoding would give U+FFFD "A"). -/
theorem c4_counterexample :
    extractText (strL ("a.txt")) ([255, 65]) pdfX0 = .ok (strL ("A")) ∧
    pyDecodeUtf8Replace ([255, 65]) = [Char.ofNat 65533, 'A'] ∧
    strL ("A") ≠ [Char.ofNat 65533, 'A'] :=
  ⟨rfl, by decide, by decide⟩

/-- Claim C4 (amended): for every uploaded file whose filename ends in .txt
(case-insensitive), extraction decodes the bytes as UTF-8 with each invalid
byte sequence dropped (`errors='ignore'`), never raising: the decoded text
is the replacement-mode decoding with its U+FFFD markers removed, so the
output does not mark where invalid input occurred. -/
theorem c4_txt_decode_drops_invalid (name : List Char) (bs : List Nat)
    (pdfX : List Nat → Except (List Char) (List Char))
    (h : (strL (".txt")).isSuffixOf (pyLower name) = true) :
    extractText name bs pdfX = .ok (pyDecodeUtf8Ignore bs) ∧
    (pyDecodeUtf8Ignore bs).Sublist (pyDecodeUtf8Replace bs) ∧
    (pyDecodeUtf8Ignore bs).length + invalidCount bs = (pyDecodeUtf8Replace bs).length := by
  refine ⟨by simp [extractText, suffix_txt_not_pdf h, h], ?_, ?_⟩
  · exact ignore_tokens_sublist (utf8Tokens bs)
  · have hlen := ignore_tokens_length (utf8Tokens bs)
    simp only [pyDecodeUtf8Ignore, pyDecodeUtf8Replace, invalidCount, List.length_map]
    exact hlen

theorem c4_txt_decode_drops_invalid_w :
    extractText (strL ("b.TXT")) ([255, 65]) pdfX0 = .ok (pyDecodeUtf8Ignore ([255, 65])) ∧
    (pyDecodeUtf8Ignore ([255, 65])).length + invalidCount ([255, 65])
      = (pyDecodeUtf8Replace ([255, 65])).length :=
  ⟨(c4_txt_decode_drops_invalid (strL ("b.TXT")) ([255, 65]) pdfX0 (by decide)).1,
   (c4_txt_decode_drops_invalid (strL ("b.TXT")) ([255, 65]) pdfX0 (by decide)).2.2⟩

/-- Claim C5: response construction from the provider text is all-or-nothing — the
JSON value "[]" yields 200 with an empty question list, text that is not
valid JSON yields the constant generic 500 message (so the raw provider text
never reaches the client on that path), and every response is either that
constant failure or the complete parsed value. -/
theorem c5_parse_all_or_nothing :
    parseAndRespond (strL ("[]")) = ⟨200, .success (.jarr [])⟩ ∧
    parseAndRespond (strL ("not json")) = ⟨500, .failure malformedMsg⟩ ∧
    (∀ t, jsonLoads t = none → parseAndRespond t = ⟨500, .failure malformedMsg⟩) ∧
    (∀ t v, jsonLoads t = some v → parseAndRespond t = ⟨200, .success v⟩) ∧
    (∀ t, parseAndRespond t = ⟨500, .failure malformedMsg⟩ ∨
      ∃ v, jsonLoads t = some v ∧ parseAndRespond t = ⟨200, .success v⟩) := by
  refine ⟨rfl, rfl, ?_, ?_, ?_⟩
  · intro t h; simp [parseAndRespond, h]
  · intro t v h; simp [parseAndRespond, h]
  · intro t
    match hj : jsonLoads t with
    | none => exact .inl (by simp [parseAndRespond, hj])
    | some v => exact .inr ⟨v, rfl, by simp [parseAndRespond, hj]⟩

theorem c5_parse_all_or_nothing_w :
    parseAndRespond (strL ("x")) = ⟨500, .failure malformedMsg⟩ :=
  c5_parse_all_or_nothing.2.2.1 (strL ("x")) rfl

/-- Claim C6: the document text interpolated into the user prompt is
`text[:15000]` — the whole text when its length is at most 15000 characters,
and exactly the first 15000 characters (a prefix whose remainder is the
dropped tail) when longer. -/
theorem c6_truncation (m : MetaFields) (t : List Char) :
    buildUserPrompt m t = promptHead m ++ t.take 15000 ++ strL ("\n") ∧
    (t.length ≤ 15000 → t.take 15000 = t) ∧
    (15000 < t.length →
      (t.take 15000).length = 15000 ∧ t.take 15000 ++ t.drop 15000 = t) := by
  refine ⟨rfl, fun h => List.take_of_length_le h, fun h => ⟨?_, List.take_append_drop _ _⟩⟩
  rw [List.length_take]
  omega

theorem c6_truncation_w :
    ((List.replicate 15001 'a').take 15000).length = 15000 :=
  ((c6_truncation (extractMeta []) (List.replicate 15001 'a')).2.2
    (by simp only [List.length_replicate]; omega)).1

/-- Claim C7: for every non-empty filename, extraction proceeds exactly when the
lowercased name ends in .pdf or .txt; for any other extension the result is
the UnsupportedFormat failure, independent of the file bytes and of the PDF
extractor (extraction is never attempted), and the endpoint answers 400. -/
theorem c7_extension_gate (name : List Char) (bs : List Nat)
    (pdfX : List Nat → Except (List Char) (List Char)) (hname : name ≠ []) :
    ((extractText name bs pdfX ≠ .error .unsupportedFmt) ↔
      ((strL (".pdf")).isSuffixOf (pyLower name) = true ∨
       (strL (".txt")).isSuffixOf (pyLower name) = true)) ∧
    ((strL (".pdf")).isSuffixOf (pyLower name) = false →
     (strL (".txt")).isSuffixOf (pyLower name) = false →
      (∀ bs2 pdfX2, extractText name bs2 pdfX2 = .error ExtractErr.unsupportedFmt) ∧
      ∀ k form prov,
        k ≠ ([] : List Char) →
        generateQuestions (some k) ⟨some ⟨name, bs⟩, form⟩ pdfX prov
          = ⟨400, .failure unsupportedMsg⟩) := by
  constructor
  · by_cases hp : (strL (".pdf")) <:+ (pyLower name)
    · match hres : pdfX bs with
      | .ok t => simp [extractText, hp, hres]
      | .error m => simp [extractText, hp, hres]
    · by_cases ht : (strL (".txt")) <:+ (pyLower name)
      · simp [extractText, hp, ht]
      · simp [extractText, hp, ht]
  · intro hp ht
    simp only [Bool.eq_false_iff, ne_eq, List.isSuffixOf_iff_suffix] at hp ht
    have hext : ∀ bs2 pdfX2, extractText name bs2 pdfX2 = .error ExtractErr.unsupportedFmt := by
      intro bs2 pdfX2; simp [extractText, hp, ht]
    refine ⟨hext, ?_⟩
    intro k form prov hk
    simp [generateQuestions, hk, hname, hext]

theorem c7_extension_gate_w :
    extractText (strL ("a.docx")) [] pdfX0 = .error ExtractErr.unsupportedFmt ∧
    generateQuestions (some (strL ("k"))) ⟨some ⟨strL ("a.docx"), []⟩, []⟩ pdfX0 provEmptyArr
      = ⟨400, .failure unsupportedMsg⟩ := by
  have h := (c7_extension_gate (strL ("a.docx")) [] pdfX0 (by decide)).2
      (by decide) (by decide)
  exact ⟨h.1 [] pdfX0, h.2 (strL ("k")) [] provEmptyArr (by decide)⟩

/-- Claim C8: with no metadata form fields supplied, prompt assembly sees exactly
the defaults subject=General, grade=Unspecified, notes=None,
num_questions=5, question_types=single, multi-select; a supplied field is
taken verbatim as an opaque string. -/
theorem c8_metadata_defaults :
    extractMeta [] = ⟨strL ("General"), strL ("Unspecified"), strL ("None"),
                      strL ("5"), strL ("single, multi-select")⟩ ∧
    ∀ form v,
      (assocGet form (strL ("subject")) = some v → (extractMeta form).subject = v) ∧
      (assocGet form (strL ("grade")) = some v → (extractMeta form).grade = v) ∧
      (assocGet form (strL ("notes")) = some v → (extractMeta form).notes = v) ∧
      (assocGet form (strL ("num_questions")) = some v →
        (extractMeta form).num_questions = v) ∧
      (assocGet form (strL ("question_types")) = some v →
        (extractMeta form).question_types = v) := by
  refine ⟨rfl, ?_⟩
  intro form v
  refine ⟨fun h => ?_, fun h => ?_, fun h => ?_, fun h => ?_, fun h => ?_⟩ <;>
    simp [extractMeta, formGet, h]

theorem c8_metadata_defaults_w :
    (extractMeta [(strL ("subject"), strL ("Math"))]).subject = strL ("Math") :=
  (c8_metadata_defaults.2 [(strL ("subject"), strL ("Math"))] (strL ("Math"))).1 rfl

/-- Claim C9: whenever the provider's text parses as syntactically valid JSON —
whatever value it is, array or not, Question invariants or not — the
endpoint answers 200 with success and the parsed value passed through
unchanged as the questions field; no check follows parsing. -/
theorem c9_no_schema_check (apiKey : Option (List Char)) (k : List Char)
    (req : GenRequest) (file : FileUpload)
    (pdfX : List Nat → Except (List Char) (List Char))
    (prov : List Char → List Char → ProviderResult)
    (t ptext : List Char) (v : JValue)
    (hk : apiKey = some k) (hk2 : k ≠ [])
    (hd : req.document = some file) (hf : file.filename ≠ [])
    (he : extractText file.filename file.content pdfX = .ok t)
    (hs : pyStrip t ≠ [])
    (hp : ∀ s u, prov s u = .ok ptext)
    (hj : jsonLoads ptext = some v) :
    generateQuestions apiKey req pdfX prov = ⟨200, .success v⟩ := by
  subst hk
  simp [generateQuestions, hk2, hd, hf, he, hs, providerPhase, hp, parseAndRespond, hj]

theorem c9_no_schema_check_w :
    generateQuestions (some (strL ("k"))) reqHi pdfX0 provObj = ⟨200, .success vObj⟩ :=
  c9_no_schema_check (some (strL ("k"))) (strL ("k")) reqHi fileHi pdfX0 provObj
    (strL ("hi")) objPtext vObj rfl (by decide) rfl (by decide) rfl (by decide)
    (fun _ _ => rfl) rfl

/-- Claim C10: for every byte sequence uploaded under a filename ending in .txt,
decoding is total, so the request never reaches the 500
"Failed to process the uploaded document." branch: once the credential,
file and filename checks pass it either answers the EmptyDocument 400 or
proceeds to prompt assembly and the provider call. -/
theorem c10_txt_never_procfail (apiKey : Option (List Char)) (req : GenRequest)
    (file : FileUpload) (pdfX : List Nat → Except (List Char) (List Char))
    (prov : List Char → List Char → ProviderResult)
    (hd : req.document = some file)
    (ht : (strL (".txt")).isSuffixOf (pyLower file.filename) = true) :
    generateQuestions apiKey req pdfX prov ≠ ⟨500, .failure procFailMsg⟩ ∧
    (∀ k, apiKey = some k → k ≠ [] → file.filename ≠ [] →
      generateQuestions apiKey req pdfX prov =
        (if pyStrip (pyDecodeUtf8Ignore file.content) = []
         then ⟨400, .failure emptyDocMsg⟩
         else providerPhase (extractMeta req.form) (pyDecodeUtf8Ignore file.content) prov)) := by
  have hext : extractText file.filename file.content pdfX
      = .ok (pyDecodeUtf8Ignore file.content) := by
    simp [extractText, suffix_txt_not_pdf ht, ht]
  constructor
  · by_cases hkey : apiKey.getD [] = []
    · simp [generateQuestions, hkey]
    · by_cases hf : file.filename = []
      · simp [generateQuestions, hkey, hd, hf]
      · by_cases hstrip : pyStrip (pyDecodeUtf8Ignore file.content) = []
        · simp [generateQuestions, hkey, hd, hf, hext, hstrip]
        · simp only [generateQuestions, hkey, hd, hf, hext, hstrip,
            if_false, if_neg, ite_false]
          match hprov : prov SYSTEM_PROMPT
              (buildUserPrompt (extractMeta req.form) (pyDecodeUtf8Ignore file.content)) with
          | .exc msg =>
            simp [providerPhase, hprov, hstrip, hf, hkey]
            intro hcontr
            exact absurd hcontr (provErrPre_append_ne msg)
          | .ok ptext =>
            match hj : jsonLoads ptext with
            | none =>
              simp [providerPhase, hprov, parseAndRespond, hj, hstrip, hf, hkey]
              decide
            | some v =>
              simp [providerPhase, hprov, parseAndRespond, hj, hstrip, hf, hkey]
  · intro k hk hk2 hf
    subst hk
    simp [generateQuestions, hk2, hd, hf, hext]

theorem c10_txt_never_procfail_w :
    generateQuestions (some (strL ("k"))) reqHi pdfX0 provEmptyArr
      = providerPhase (extractMeta []) (strL ("hi")) provEmptyArr := by
  have h := (c10_txt_never_procfail (some (strL ("k"))) reqHi fileHi pdfX0 provEmptyArr
      rfl (by decide)).2 (strL ("k")) rfl (by decide) (by decide)
  rw [h]
  rfl
